import Mathlib

/-! Shallow embedding of the IBM private DNS services provider
(`pkg/dns/ibm/private/dnssvcs-provider.go`): input validation, TTL and
DNS-name normalization, and the reconciliation loops of
`createOrUpdateDNSRecord` and `Delete`.  Remote calls are modelled by an
explicit trace of `RemoteOp` values; the remote service's responses are
supplied by a `ClientBehavior` oracle indexed by the per-kind call count. -/

namespace DnsSvcs

/-- Spec part of an `iov1.DNSRecord`: the fields the provider reads. -/
structure DNSRecordSpec where
  dnsName : String
  recordType : String
  targets : List String
  recordTTL : Int
deriving DecidableEq

/-- A desired DNS record (`iov1.DNSRecord`). -/
structure DNSRecord where
  spec : DNSRecordSpec
deriving DecidableEq

/-- A DNS zone (`configv1.DNSZone`): only the id is used by the provider. -/
structure DNSZone where
  id : String
deriving DecidableEq

/-- The constant zone id `ZONEIDFORTESTING` from the source. -/
def ZONEIDFORTESTING : String := "1357a51b-f6ba-4bd4-a8a7-dd509499c08f"

/-- The package-level variable `defaultDNSSVCSRecordTTL = int64(120)`. -/
def defaultDNSSVCSRecordTTL : Int := 120

/-- The list of TTL values accepted by the remote service, as iterated by
`createOrUpdateDNSRecord`. -/
def allowedTTLs : List Int := [1, 60, 120, 300, 600, 900, 1800, 3600, 7200, 18000, 43200]

/-- The loop in `createOrUpdateDNSRecord` that decides whether the requested
TTL is replaced by the default: `useDefaultTTL` starts `true` and is set
`false` when some allowed value equals the requested TTL. -/
def useDefaultTTL (ttl : Int) : Bool :=
  allowedTTLs.foldl (fun acc v => if v == ttl then false else acc) true

/-- The TTL value in effect after the normalization step of
`createOrUpdateDNSRecord`. -/
def normalizeTTL (ttl : Int) : Int :=
  if useDefaultTTL ttl then defaultDNSSVCSRecordTTL else ttl

/-- Models `strings.TrimSuffix(s, ".")`: drop the last character when it is
a dot, otherwise return the string unchanged. -/
def trimSuffixDot (s : String) : String :=
  if s.data.getLast? = some '.' then String.mk s.data.dropLast else s

/-- Payload of a remote resource record (`resourceRecord.Rdata`, an
`interface` value in Go): `.map` models a value castable to
`map[string]interface` (with every entry's value already printed by
`fmt.Sprint`); `.other` models any value for which that type assertion
fails. -/
inductive RData where
  | map (entries : List (String × String))
  | other
deriving DecidableEq

/-- A remote resource record as returned by the list call.  The field
`rtype` models `resourceRecord.Type`. -/
structure ResourceRecord where
  id : String
  name : String
  rtype : String
  rdata : RData
deriving DecidableEq

/-- Printed value of `rData[key]`: `fmt.Sprint` of a missing map key (a nil
`interface` value) prints as the string `<nil>`. -/
def rdataPrint (entries : List (String × String)) (key : String) : String :=
  match entries.lookup key with
  | some v => v
  | none => "<nil>"

/-- Target extraction shared by `Delete` and `createOrUpdateDNSRecord`:
`none` models the early error return when the `Rdata` type assertion fails;
for record types other than CNAME and A the extracted target stays the empty
string (the two Go `if` statements are mutually exclusive, so the chained
`if` below is equivalent). -/
def getResourceRecordTarget (r : ResourceRecord) : Option String :=
  if r.rtype == "CNAME" then
    match r.rdata with
    | .map entries => some (rdataPrint entries "cname")
    | .other => none
  else if r.rtype == "A" then
    match r.rdata with
    | .map entries => some (rdataPrint entries "ip")
    | .other => none
  else
    some ""

/-- Typed rdata payload built for create and update calls
(`NewResourceRecord...InputRdataRdataCnameRecord` / `...ARecord`). -/
inductive RDataInput where
  | cnameRecord (cname : String)
  | aRecord (ip : String)
deriving DecidableEq

/-- One remote operation issued against the DNS services client, with the
arguments the provider passes. -/
inductive RemoteOp where
  | listResourceRecords (instanceID zoneID : String)
  | createResourceRecord (instanceID zoneID name rtype : String) (rdata : RDataInput) (ttl : Int)
  | updateResourceRecord (instanceID zoneID recordID name : String) (rdata : RDataInput) (ttl : Int)
  | deleteResourceRecord (instanceID zoneID recordID : String)
deriving DecidableEq

/-- Whether an operation is an update call. -/
def RemoteOp.isUpdate : RemoteOp → Bool
  | .updateResourceRecord _ _ _ _ _ _ => true
  | _ => false

/-- Whether an operation is a create call. -/
def RemoteOp.isCreate : RemoteOp → Bool
  | .createResourceRecord _ _ _ _ _ _ => true
  | _ => false

/-- The zone id argument an operation carries. -/
def RemoteOp.zoneID : RemoteOp → String
  | .listResourceRecords _ z => z
  | .createResourceRecord _ z _ _ _ _ => z
  | .updateResourceRecord _ z _ _ _ _ => z
  | .deleteResourceRecord _ z _ => z

/-- Oracle describing how the remote service answers, indexed by the
per-kind call count within one provider call.  `none` models a nil pointer
(nil result or nil response); a `Bool` of `true` models a non-nil error. -/
structure ClientBehavior where
  listResult : Nat → Option (List ResourceRecord)
  listResponse : Nat → Option Nat
  listErr : Nat → Bool
  updateErr : Nat → Bool
  createErr : Nat → Bool
  deleteResponse : Nat → Option Nat
  deleteErr : Nat → Bool

/-- The distinct error returns of the provider functions. -/
inductive ProviderError where
  | invalidInput (msgs : List String)
  | unknownZone (zoneID : String)
  | listFailed
  | invalidResult
  | malformedRData
  | updateFailed
  | createFailed
  | deleteFailed
deriving DecidableEq

/-- Per-call execution state: the trace of issued remote operations and the
per-kind call counters used to consult the oracle. -/
structure CallState where
  ops : List RemoteOp
  listIdx : Nat
  updateIdx : Nat
  createIdx : Nat
  deleteIdx : Nat
deriving DecidableEq

/-- State at the start of a provider call: no operations issued yet. -/
def CallState.start : CallState := ⟨[], 0, 0, 0, 0⟩

/-- The provider: the keys of the `dnsServices` map (registered zone ids)
and the configured instance id.  The per-zone clients all behave according
to the `ClientBehavior` oracle supplied with each call. -/
structure Provider where
  dnsServices : List String
  instanceID : String

/-- Result of one provider call: the trace of remote operations, the final
state of the caller's record (which `createOrUpdateDNSRecord` may mutate in
place), and the returned error (`none` is a nil error). -/
structure CallResult where
  ops : List RemoteOp
  record : DNSRecord
  err : Option ProviderError
deriving DecidableEq

/-- The Go guard `response != nil && response.StatusCode != http.StatusNotFound`
deciding whether a failed remote call's error is returned. -/
def responseNon404 (response : Option Nat) : Bool :=
  match response with
  | some code => code != 404
  | none => false

/-- `validateInputDNSData`: the aggregated list of validation error
messages; the empty list models a nil aggregate error.  (A nil record
pointer is outside the embedded state space: records are values here.) -/
def validateInputDNSData (record : DNSRecord) (zone : DNSZone) : List String :=
  (if record.spec.dnsName.length = 0 then ["dns record name is empty"] else []) ++
  (if record.spec.recordType.length = 0 then ["dns record type is empty"] else []) ++
  (if record.spec.targets.length = 0 then ["dns record content is empty"] else []) ++
  (if zone.id.length = 0 then ["dns zone id is empty"] else [])

/-- Inner loop of `createOrUpdateDNSRecord` over the listed records for one
target: on a malformed payload return the error; on a match issue an update
using the existing record's id and set the `update` flag; abort when the
update call fails. -/
def scanRecords (cb : ClientBehavior) (instanceID dnsName rtype : String) (ttl : Int)
    (target : String) :
    List ResourceRecord → Bool → CallState → Except (CallState × ProviderError) (Bool × CallState)
  | [], update, st => .ok (update, st)
  | r :: rs, update, st =>
    match getResourceRecordTarget r with
    | none => .error (st, .malformedRData)
    | some rt =>
      if r.name == dnsName && rt == target then
        let op := RemoteOp.updateResourceRecord instanceID ZONEIDFORTESTING r.id dnsName
          (if rtype == "CNAME" then .cnameRecord target else .aRecord target) ttl
        let st' : CallState := { st with ops := st.ops ++ [op], updateIdx := st.updateIdx + 1 }
        if cb.updateErr st.updateIdx then
          .error (st', .updateFailed)
        else
          scanRecords cb instanceID dnsName rtype ttl target rs true st'
      else
        scanRecords cb instanceID dnsName rtype ttl target rs update st

/-- Body of the per-target loop of `createOrUpdateDNSRecord`: list the
records (the list error is returned only when a response is present with a
status other than 404, a nil result is an `invalid result` error), scan
them, and issue a create when no match set the update flag. -/
def processTarget (cb : ClientBehavior) (instanceID dnsName rtype : String) (ttl : Int)
    (st : CallState) (target : String) : Except (CallState × ProviderError) CallState :=
  let i := st.listIdx
  let st1 : CallState := { st with
    ops := st.ops ++ [.listResourceRecords instanceID ZONEIDFORTESTING], listIdx := i + 1 }
  if cb.listErr i && responseNon404 (cb.listResponse i) then
    .error (st1, .listFailed)
  else
    match cb.listResult i with
    | none => .error (st1, .invalidResult)
    | some records =>
      match scanRecords cb instanceID dnsName rtype ttl target records false st1 with
      | .error e => .error e
      | .ok (update, st2) =>
        if update then
          .ok st2
        else
          let op := RemoteOp.createResourceRecord instanceID ZONEIDFORTESTING dnsName rtype
            (if rtype == "CNAME" then .cnameRecord target else .aRecord target) ttl
          let st3 : CallState := { st2 with ops := st2.ops ++ [op], createIdx := st2.createIdx + 1 }
          if cb.createErr st2.createIdx then .error (st3, .createFailed) else .ok st3

/-- The per-target loop of `createOrUpdateDNSRecord`. -/
def processTargets (cb : ClientBehavior) (instanceID dnsName rtype : String) (ttl : Int) :
    List String → CallState → Except (CallState × ProviderError) CallState
  | [], st => .ok st
  | t :: ts, st =>
    match processTarget cb instanceID dnsName rtype ttl st t with
    | .error e => .error e
    | .ok st' => processTargets cb instanceID dnsName rtype ttl ts st'

/-- `createOrUpdateDNSRecord`: validate, look the zone up, strip a trailing
dot from the name, normalize the TTL by mutating the caller's record in
place, then run the per-target loop. -/
def createOrUpdateDNSRecord (p : Provider) (cb : ClientBehavior) (record : DNSRecord)
    (zone : DNSZone) : CallResult :=
  let errs := validateInputDNSData record zone
  if !errs.isEmpty then
    ⟨[], record, some (.invalidInput errs)⟩
  else if !(p.dnsServices.contains zone.id) then
    ⟨[], record, some (.unknownZone zone.id)⟩
  else
    let dnsName := trimSuffixDot record.spec.dnsName
    let record' := if useDefaultTTL record.spec.recordTTL then
        { record with spec := { record.spec with recordTTL := defaultDNSSVCSRecordTTL } }
      else record
    match processTargets cb p.instanceID dnsName record'.spec.recordType
        record'.spec.recordTTL record'.spec.targets CallState.start with
    | .error (st, e) => ⟨st.ops, record', some e⟩
    | .ok st => ⟨st.ops, record', none⟩

/-- `Ensure` delegates to `createOrUpdateDNSRecord`. -/
def Ensure (p : Provider) (cb : ClientBehavior) (record : DNSRecord) (zone : DNSZone) :
    CallResult :=
  createOrUpdateDNSRecord p cb record zone

/-- `Replace` delegates to `createOrUpdateDNSRecord`. -/
def Replace (p : Provider) (cb : ClientBehavior) (record : DNSRecord) (zone : DNSZone) :
    CallResult :=
  createOrUpdateDNSRecord p cb record zone

/-- Inner loop of `Delete` over the listed records for one target: on a
malformed payload return the error; on a match (target first, then name)
issue a delete of the existing record; the delete error is returned only
when a response is present with a status other than 404. -/
def deleteRecordsLoop (cb : ClientBehavior) (instanceID dnsName : String) (target : String) :
    List ResourceRecord → CallState → Except (CallState × ProviderError) CallState
  | [], st => .ok st
  | r :: rs, st =>
    match getResourceRecordTarget r with
    | none => .error (st, .malformedRData)
    | some rt =>
      if rt == target && r.name == dnsName then
        let st' : CallState := { st with
          ops := st.ops ++ [.deleteResourceRecord instanceID ZONEIDFORTESTING r.id],
          deleteIdx := st.deleteIdx + 1 }
        if cb.deleteErr st.deleteIdx && responseNon404 (cb.deleteResponse st.deleteIdx) then
          .error (st', .deleteFailed)
        else
          deleteRecordsLoop cb instanceID dnsName target rs st'
      else
        deleteRecordsLoop cb instanceID dnsName target rs st

/-- The per-target loop of `Delete`; the record list is obtained once,
before the loop. -/
def deleteTargetsLoop (cb : ClientBehavior) (instanceID dnsName : String)
    (records : List ResourceRecord) :
    List String → CallState → Except (CallState × ProviderError) CallState
  | [], st => .ok st
  | t :: ts, st =>
    match deleteRecordsLoop cb instanceID dnsName t records st with
    | .error e => .error e
    | .ok st' => deleteTargetsLoop cb instanceID dnsName records ts st'

/-- `Delete`: validate, look the zone up, list once (with the same 404 and
nil-result handling as `createOrUpdateDNSRecord`), then delete every record
matching some target on (extracted target, trimmed name). -/
def Delete (p : Provider) (cb : ClientBehavior) (record : DNSRecord) (zone : DNSZone) :
    CallResult :=
  let errs := validateInputDNSData record zone
  if !errs.isEmpty then
    ⟨[], record, some (.invalidInput errs)⟩
  else if !(p.dnsServices.contains zone.id) then
    ⟨[], record, some (.unknownZone ZONEIDFORTESTING)⟩
  else
    let dnsName := trimSuffixDot record.spec.dnsName
    let st0 : CallState := { CallState.start with
      ops := [.listResourceRecords p.instanceID ZONEIDFORTESTING], listIdx := 1 }
    if cb.listErr 0 && responseNon404 (cb.listResponse 0) then
      ⟨st0.ops, record, some .listFailed⟩
    else
      match cb.listResult 0 with
      | none => ⟨st0.ops, record, some .invalidResult⟩
      | some records =>
        match deleteTargetsLoop cb p.instanceID dnsName records record.spec.targets st0 with
        | .error (st, e) => ⟨st.ops, record, some e⟩
        | .ok st => ⟨st.ops, record, none⟩

/-- A record in the listed set that does not block nor match the scan for
the given (normalized name, target) pair: its payload parses and it misses
the match condition. -/
def misses (dnsName target : String) (r : ResourceRecord) : Prop :=
  ∃ v, getResourceRecordTarget r = some v ∧ ¬(r.name = dnsName ∧ v = target)

/-- The record after the in-place TTL normalization step of
`createOrUpdateDNSRecord`. -/
def normalizeRecordTTL (record : DNSRecord) : DNSRecord :=
  if useDefaultTTL record.spec.recordTTL then
    { record with spec := { record.spec with recordTTL := defaultDNSSVCSRecordTTL } }
  else record

/-- Sample provider registering the zone id used by the unit tests. -/
def sampleProvider : Provider := ⟨["zoneID"], "instanceID"⟩

/-- Sample zone whose id is registered in `sampleProvider`. -/
def sampleZone : DNSZone := ⟨"zoneID"⟩

/-- A client behavior that answers every list call with the given records
and status 200, and never fails. -/
def cbWith (records : List ResourceRecord) : ClientBehavior :=
  ⟨fun _ => some records, fun _ => some 200, fun _ => false, fun _ => false, fun _ => false,
   fun _ => some 200, fun _ => false⟩

/-- Sample desired record matching the unit tests' update scenario. -/
def recordUpdate : DNSRecord := ⟨⟨"testUpdate", "A", ["11.22.33.44"], 120⟩⟩

/-- Sample remote record matching `recordUpdate` on name and target. -/
def rrMatch : ResourceRecord := ⟨"recordID1", "testUpdate", "A", .map [("ip", "11.22.33.44")]⟩

/-- Sample desired record for the create scenario. -/
def recordCreate : DNSRecord := ⟨⟨"testCreate", "A", ["11.22.33.44"], 120⟩⟩

/-- State carried by either outcome of a loop step. -/
def exceptState (res : Except (CallState × ProviderError) CallState) : CallState :=
  match res with
  | .error (st, _) => st
  | .ok st => st

/-- State carried by either outcome of the record scan. -/
def exceptStateScan (res : Except (CallState × ProviderError) (Bool × CallState)) : CallState :=
  match res with
  | .error (st, _) => st
  | .ok (_, st) => st

/-- A second registered zone id, for zone-invariance checks. -/
def sampleZone2 : DNSZone := ⟨"zoneID2"⟩

/-- Provider with two registered zones. -/
def sampleProvider2 : Provider := ⟨["zoneID", "zoneID2"], "instanceID"⟩

/-- Sample desired record for the delete scenario. -/
def recordDelete : DNSRecord := ⟨⟨"testDelete", "A", ["11.22.33.44"], 120⟩⟩

/-- Sample remote record matching `recordDelete`. -/
def rrDelete : ResourceRecord := ⟨"recordID1", "testDelete", "A", .map [("ip", "11.22.33.44")]⟩

/-- A remote record of an unrecognized type whose payload is not a map. -/
def rrTXT : ResourceRecord := ⟨"recordID2", "testCreate", "TXT", .other⟩

/-- A remote A record whose payload is not castable to a map. -/
def rrBadA : ResourceRecord := ⟨"recordID3", "testCreate", "A", .other⟩

/-- Client behavior whose delete calls always answer 404 together with a
non-nil error. -/
def cbDelete404 (records : List ResourceRecord) : ClientBehavior :=
  ⟨fun _ => some records, fun _ => some 200, fun _ => false, fun _ => false, fun _ => false,
   fun _ => some 404, fun _ => true⟩

/-- Client behavior whose list calls fail with a 404 response and a nil
result. -/
def cbList404Nil : ClientBehavior :=
  ⟨fun _ => none, fun _ => some 404, fun _ => true, fun _ => false, fun _ => false,
   fun _ => some 200, fun _ => false⟩

/-- Client behavior whose list calls fail with a 404 response but a non-nil
empty result. -/
def cbList404Empty : ClientBehavior :=
  ⟨fun _ => some [], fun _ => some 404, fun _ => true, fun _ => false, fun _ => false,
   fun _ => some 200, fun _ => false⟩

theorem length_eq_zero_iff (s : String) : s.length = 0 ↔ s = "" := by
  constructor
  · intro h
    apply String.ext
    have : s.data.length = 0 := h
    simpa using List.length_eq_zero.mp this
  · intro h
    subst h
    rfl

theorem foldl_ttl_false (l : List Int) (t : Int) :
    l.foldl (fun acc v => if v == t then false else acc) false = false := by
  induction l with
  | nil => rfl
  | cons x xs ih =>
    simp only [List.foldl_cons]
    by_cases h : (x == t) = true
    · rw [if_pos h]; exact ih
    · rw [if_neg h]; exact ih

theorem foldl_ttl_mem (l : List Int) (t : Int) (hmem : t ∈ l) (b : Bool) :
    l.foldl (fun acc v => if v == t then false else acc) b = false := by
  induction l generalizing b with
  | nil => cases hmem
  | cons x xs ih =>
    simp only [List.foldl_cons]
    by_cases h : (x == t) = true
    · rw [if_pos h]; exact foldl_ttl_false xs t
    · rw [if_neg h]
      rcases List.mem_cons.mp hmem with h1 | h1
      · exact absurd (beq_iff_eq.mpr h1.symm) h
      · exact ih h1 b

theorem foldl_ttl_not_mem (l : List Int) (t : Int) (hmem : t ∉ l) (b : Bool) :
    l.foldl (fun acc v => if v == t then false else acc) b = b := by
  induction l generalizing b with
  | nil => rfl
  | cons x xs ih =>
    simp only [List.foldl_cons]
    have hx : (x == t) ≠ true := by
      intro h
      exact hmem (List.mem_cons.mpr (Or.inl (beq_iff_eq.mp h).symm))
    rw [if_neg hx]
    exact ih (fun h => hmem (List.mem_cons_of_mem _ h)) b

theorem useDefaultTTL_of_mem {t : Int} (h : t ∈ allowedTTLs) : useDefaultTTL t = false :=
  foldl_ttl_mem allowedTTLs t h true

theorem useDefaultTTL_of_not_mem {t : Int} (h : t ∉ allowedTTLs) : useDefaultTTL t = true :=
  foldl_ttl_not_mem allowedTTLs t h true

theorem validateInputDNSData_eq_nil {record : DNSRecord} {zone : DNSZone} :
    validateInputDNSData record zone = [] ↔
      (record.spec.dnsName ≠ "" ∧ record.spec.recordType ≠ "" ∧
       record.spec.targets ≠ [] ∧ zone.id ≠ "") := by
  unfold validateInputDNSData
  rw [List.append_eq_nil, List.append_eq_nil, List.append_eq_nil]
  constructor
  · rintro ⟨⟨⟨h1, h2⟩, h3⟩, h4⟩
    refine ⟨?_, ?_, ?_, ?_⟩
    · intro he
      rw [he] at h1
      simp at h1
    · intro he
      rw [he] at h2
      simp at h2
    · intro he
      rw [he] at h3
      simp at h3
    · intro he
      rw [he] at h4
      simp at h4
  · rintro ⟨h1, h2, h3, h4⟩
    refine ⟨⟨⟨?_, ?_⟩, ?_⟩, ?_⟩
    · rw [if_neg (fun hc => h1 ((length_eq_zero_iff _).mp hc))]
    · rw [if_neg (fun hc => h2 ((length_eq_zero_iff _).mp hc))]
    · rw [if_neg (fun hc => h3 (List.length_eq_zero.mp hc))]
    · rw [if_neg (fun hc => h4 ((length_eq_zero_iff _).mp hc))]

theorem responseNon404_404 : responseNon404 (some 404) = false := rfl

theorem noabort_of_listok {cb : ClientBehavior} {i : Nat} (h : cb.listErr i = false) :
    (cb.listErr i && responseNon404 (cb.listResponse i)) = false := by
  rw [h]
  exact Bool.false_and _

theorem noabort_of_404 {cb : ClientBehavior} {i : Nat} (h : cb.listResponse i = some 404) :
    (cb.listErr i && responseNon404 (cb.listResponse i)) = false := by
  rw [h, responseNon404_404]
  exact Bool.and_false _

theorem scanRecords_misses (cb : ClientBehavior) (instanceID dnsName rtype : String)
    (ttl : Int) (target : String) (l : List ResourceRecord)
    (h : ∀ r ∈ l, misses dnsName target r) (update : Bool) (st : CallState) :
    scanRecords cb instanceID dnsName rtype ttl target l update st = .ok (update, st) := by
  induction l with
  | nil => rfl
  | cons r rs ih =>
    obtain ⟨v, hv, hnm⟩ := h r (List.mem_cons_self r rs)
    have hcond : ((r.name == dnsName) && (v == target)) ≠ true := by
      intro hc
      rw [Bool.and_eq_true, beq_iff_eq, beq_iff_eq] at hc
      exact hnm hc
    simp only [scanRecords, hv]
    rw [if_neg hcond]
    exact ih (fun r' hr' => h r' (List.mem_cons_of_mem _ hr'))

theorem scanRecords_append (cb : ClientBehavior) (instanceID dnsName rtype : String)
    (ttl : Int) (target : String) (l₁ l₂ : List ResourceRecord)
    (update : Bool) (st : CallState) (u' : Bool) (st' : CallState)
    (h : scanRecords cb instanceID dnsName rtype ttl target l₁ update st = .ok (u', st')) :
    scanRecords cb instanceID dnsName rtype ttl target (l₁ ++ l₂) update st =
      scanRecords cb instanceID dnsName rtype ttl target l₂ u' st' := by
  induction l₁ generalizing update st with
  | nil =>
    simp only [scanRecords, Except.ok.injEq, Prod.mk.injEq] at h
    obtain ⟨h1, h2⟩ := h
    subst h1
    subst h2
    rw [List.nil_append]
  | cons r rs ih =>
    cases hg : getResourceRecordTarget r with
    | none =>
      simp only [scanRecords, hg] at h
      exact Except.noConfusion h
    | some v =>
      simp only [scanRecords, List.cons_append, hg] at h ⊢
      by_cases hc : ((r.name == dnsName) && (v == target)) = true
      · rw [if_pos hc] at h ⊢
        by_cases he : cb.updateErr st.updateIdx = true
        · rw [if_pos he] at h
          exact Except.noConfusion h
        · rw [if_neg he] at h ⊢
          exact ih _ _ h
      · rw [if_neg hc] at h ⊢
        exact ih _ _ h

theorem createOrUpdateDNSRecord_of_valid (p : Provider) (cb : ClientBehavior)
    (record : DNSRecord) (zone : DNSZone)
    (hval : validateInputDNSData record zone = []) (hz : zone.id ∈ p.dnsServices) :
    createOrUpdateDNSRecord p cb record zone =
      match processTargets cb p.instanceID (trimSuffixDot record.spec.dnsName)
          (normalizeRecordTTL record).spec.recordType
          (normalizeRecordTTL record).spec.recordTTL
          (normalizeRecordTTL record).spec.targets CallState.start with
      | .error (st, e) => ⟨st.ops, normalizeRecordTTL record, some e⟩
      | .ok st => ⟨st.ops, normalizeRecordTTL record, none⟩ := by
  have hc : p.dnsServices.contains zone.id = true := List.elem_iff.mpr hz
  unfold createOrUpdateDNSRecord
  rw [hval]
  simp only [List.isEmpty_nil, Bool.not_true, if_false, hc, Bool.not_true, if_false]
  rfl

theorem delete_of_valid (p : Provider) (cb : ClientBehavior)
    (record : DNSRecord) (zone : DNSZone)
    (hval : validateInputDNSData record zone = []) (hz : zone.id ∈ p.dnsServices)
    (hnoabort : (cb.listErr 0 && responseNon404 (cb.listResponse 0)) = false) :
    Delete p cb record zone =
      match cb.listResult 0 with
      | none => ⟨[.listResourceRecords p.instanceID ZONEIDFORTESTING], record,
                 some .invalidResult⟩
      | some records =>
        match deleteTargetsLoop cb p.instanceID (trimSuffixDot record.spec.dnsName) records
            record.spec.targets
            { CallState.start with
              ops := [.listResourceRecords p.instanceID ZONEIDFORTESTING], listIdx := 1 } with
        | .error (st, e) => ⟨st.ops, record, some e⟩
        | .ok st => ⟨st.ops, record, none⟩ := by
  have hc : p.dnsServices.contains zone.id = true := List.elem_iff.mpr hz
  unfold Delete
  rw [hval]
  simp only [List.isEmpty_nil, Bool.not_true, if_false, hc, hnoabort, Bool.false_eq_true,
    if_false]

theorem normalizeRecordTTL_dnsName (record : DNSRecord) :
    (normalizeRecordTTL record).spec.dnsName = record.spec.dnsName := by
  unfold normalizeRecordTTL
  split <;> rfl

theorem normalizeRecordTTL_recordType (record : DNSRecord) :
    (normalizeRecordTTL record).spec.recordType = record.spec.recordType := by
  unfold normalizeRecordTTL
  split <;> rfl

theorem normalizeRecordTTL_targets (record : DNSRecord) :
    (normalizeRecordTTL record).spec.targets = record.spec.targets := by
  unfold normalizeRecordTTL
  split <;> rfl

theorem normalizeRecordTTL_recordTTL (record : DNSRecord) :
    (normalizeRecordTTL record).spec.recordTTL = normalizeTTL record.spec.recordTTL := by
  unfold normalizeRecordTTL normalizeTTL
  split <;> rfl

/-- C5: normalizing a TTL already in the allowed set returns it unchanged;
normalizing any other value returns exactly 120. -/
theorem C5_ttl_normalization (ttl : Int) :
    (ttl ∈ allowedTTLs → normalizeTTL ttl = ttl) ∧
    (ttl ∉ allowedTTLs → normalizeTTL ttl = 120) := by
  constructor
  · intro h
    simp [normalizeTTL, useDefaultTTL_of_mem h]
  · intro h
    simp [normalizeTTL, useDefaultTTL_of_not_mem h, defaultDNSSVCSRecordTTL]

theorem C5_ttl_normalization_witness :
    (60 ∈ allowedTTLs ∧ normalizeTTL 60 = 60) ∧
    (100 ∉ allowedTTLs ∧ normalizeTTL 100 = 120) :=
  ⟨⟨by decide, (C5_ttl_normalization 60).1 (by decide)⟩,
   ⟨by decide, (C5_ttl_normalization 100).2 (by decide)⟩⟩

/-- C6: name normalization strips a single trailing dot, so a name without
a trailing dot and the same name followed by a dot normalize to the same
comparison key; in particular "host.example.com." and "host.example.com"
do. -/
theorem C6_name_normalization (s : String) (h : s.data.getLast? ≠ some '.') :
    trimSuffixDot (s ++ ".") = trimSuffixDot s ∧
    trimSuffixDot "host.example.com." = trimSuffixDot "host.example.com" := by
  constructor
  · have hdot : (".").data = ['.'] := rfl
    have hdata : (s ++ ".").data = s.data ++ ['.'] := by
      rw [String.data_append, hdot]
    have hlast : (s ++ ".").data.getLast? = some '.' := by
      rw [hdata]
      exact List.getLast?_concat _
    unfold trimSuffixDot
    rw [if_pos hlast, if_neg h, hdata, List.dropLast_concat]
  · decide

theorem C6_name_normalization_witness :
    "host.example.com".data.getLast? ≠ some '.' ∧
    (trimSuffixDot ("host.example.com" ++ ".") = trimSuffixDot "host.example.com" ∧
     trimSuffixDot "host.example.com." = trimSuffixDot "host.example.com") :=
  ⟨by decide, C6_name_normalization "host.example.com" (by decide)⟩

/-- C4: on a desired record with empty name, type or target list, or a zone
with empty id, `Ensure`, `Replace` and `Delete` return the aggregated
invalid-input error and issue no remote operation at all. -/
theorem C4_invalid_input (p : Provider) (cb : ClientBehavior) (record : DNSRecord)
    (zone : DNSZone)
    (h : record.spec.dnsName = "" ∨ record.spec.recordType = "" ∨
         record.spec.targets = [] ∨ zone.id = "") :
    Ensure p cb record zone =
      ⟨[], record, some (.invalidInput (validateInputDNSData record zone))⟩ ∧
    Replace p cb record zone =
      ⟨[], record, some (.invalidInput (validateInputDNSData record zone))⟩ ∧
    Delete p cb record zone =
      ⟨[], record, some (.invalidInput (validateInputDNSData record zone))⟩ := by
  have hne : validateInputDNSData record zone ≠ [] := by
    intro he
    obtain ⟨h1, h2, h3, h4⟩ := validateInputDNSData_eq_nil.mp he
    rcases h with h | h | h | h
    · exact h1 h
    · exact h2 h
    · exact h3 h
    · exact h4 h
  have hbe : (validateInputDNSData record zone).isEmpty = false := by
    cases hl : validateInputDNSData record zone with
    | nil => exact absurd hl hne
    | cons a as => rfl
  refine ⟨?_, ?_, ?_⟩
  · simp only [Ensure, createOrUpdateDNSRecord, hbe, Bool.not_false, if_true]
  · simp only [Replace, createOrUpdateDNSRecord, hbe, Bool.not_false, if_true]
  · simp only [Delete, hbe, Bool.not_false, if_true]

theorem C4_invalid_input_witness :
    Ensure sampleProvider (cbWith []) ⟨⟨"", "A", ["11.22.33.44"], 120⟩⟩ sampleZone =
      ⟨[], ⟨⟨"", "A", ["11.22.33.44"], 120⟩⟩,
       some (.invalidInput
         (validateInputDNSData ⟨⟨"", "A", ["11.22.33.44"], 120⟩⟩ sampleZone))⟩ ∧
    Replace sampleProvider (cbWith []) ⟨⟨"", "A", ["11.22.33.44"], 120⟩⟩ sampleZone =
      ⟨[], ⟨⟨"", "A", ["11.22.33.44"], 120⟩⟩,
       some (.invalidInput
         (validateInputDNSData ⟨⟨"", "A", ["11.22.33.44"], 120⟩⟩ sampleZone))⟩ ∧
    Delete sampleProvider (cbWith []) ⟨⟨"", "A", ["11.22.33.44"], 120⟩⟩ sampleZone =
      ⟨[], ⟨⟨"", "A", ["11.22.33.44"], 120⟩⟩,
       some (.invalidInput
         (validateInputDNSData ⟨⟨"", "A", ["11.22.33.44"], 120⟩⟩ sampleZone))⟩ :=
  C4_invalid_input sampleProvider (cbWith []) ⟨⟨"", "A", ["11.22.33.44"], 120⟩⟩ sampleZone
    (Or.inl rfl)

theorem scanRecords_cons_match (cb : ClientBehavior) (instanceID dnsName rtype : String)
    (ttl : Int) (target : String) (r : ResourceRecord) (l : List ResourceRecord)
    (update : Bool) (st : CallState)
    (hname : r.name = dnsName) (htarget : getResourceRecordTarget r = some target)
    (hupd : cb.updateErr st.updateIdx = false) :
    scanRecords cb instanceID dnsName rtype ttl target (r :: l) update st =
      scanRecords cb instanceID dnsName rtype ttl target l true
        { st with
          ops := st.ops ++ [RemoteOp.updateResourceRecord instanceID ZONEIDFORTESTING r.id
            dnsName (if rtype == "CNAME" then .cnameRecord target else .aRecord target) ttl],
          updateIdx := st.updateIdx + 1 } := by
  simp only [scanRecords, htarget]
  rw [if_pos (by rw [Bool.and_eq_true, beq_iff_eq, beq_iff_eq]; exact ⟨hname, rfl⟩)]
  rw [if_neg (by rw [hupd]; exact Bool.false_ne_true)]

theorem processTarget_update (cb : ClientBehavior) (instanceID dnsName rtype : String)
    (ttl : Int) (st : CallState) (target : String) (records : List ResourceRecord)
    (st2 : CallState)
    (hnoabort : (cb.listErr st.listIdx && responseNon404 (cb.listResponse st.listIdx)) = false)
    (hres : cb.listResult st.listIdx = some records)
    (hscan : scanRecords cb instanceID dnsName rtype ttl target records false
      { st with
        ops := st.ops ++ [.listResourceRecords instanceID ZONEIDFORTESTING],
        listIdx := st.listIdx + 1 } = .ok (true, st2)) :
    processTarget cb instanceID dnsName rtype ttl st target = .ok st2 := by
  simp only [processTarget, hnoabort, Bool.false_eq_true, if_false, hres, hscan, if_true]

theorem processTarget_create (cb : ClientBehavior) (instanceID dnsName rtype : String)
    (ttl : Int) (st : CallState) (target : String) (records : List ResourceRecord)
    (st2 : CallState)
    (hnoabort : (cb.listErr st.listIdx && responseNon404 (cb.listResponse st.listIdx)) = false)
    (hres : cb.listResult st.listIdx = some records)
    (hscan : scanRecords cb instanceID dnsName rtype ttl target records false
      { st with
        ops := st.ops ++ [.listResourceRecords instanceID ZONEIDFORTESTING],
        listIdx := st.listIdx + 1 } = .ok (false, st2))
    (hcr : cb.createErr st2.createIdx = false) :
    processTarget cb instanceID dnsName rtype ttl st target =
      .ok { st2 with
        ops := st2.ops ++ [RemoteOp.createResourceRecord instanceID ZONEIDFORTESTING dnsName
          rtype (if rtype == "CNAME" then .cnameRecord target else .aRecord target) ttl],
        createIdx := st2.createIdx + 1 } := by
  simp only [processTarget, hnoabort, Bool.false_eq_true, if_false, hres, hscan, hcr]

theorem processTargets_single (cb : ClientBehavior) (instanceID dnsName rtype : String)
    (ttl : Int) (t : String) (st st' : CallState)
    (h : processTarget cb instanceID dnsName rtype ttl st t = .ok st') :
    processTargets cb instanceID dnsName rtype ttl [t] st = .ok st' := by
  simp only [processTargets, h]

/-- C1: with one desired target and exactly one listed remote record
matching on (normalized name, extracted target), `Ensure` issues exactly
one update (using that record's id and the normalized TTL) and zero
creates; `Replace` behaves identically. -/
theorem C1_update_on_match (p : Provider) (cb : ClientBehavior) (record : DNSRecord)
    (zone : DNSZone) (t : String) (r : ResourceRecord) (l₁ l₂ : List ResourceRecord)
    (hname : record.spec.dnsName ≠ "") (htype : record.spec.recordType ≠ "")
    (htargets : record.spec.targets = [t]) (hzid : zone.id ≠ "")
    (hz : zone.id ∈ p.dnsServices)
    (hlistok : cb.listErr 0 = false)
    (hlist : cb.listResult 0 = some (l₁ ++ r :: l₂))
    (hrname : r.name = trimSuffixDot record.spec.dnsName)
    (hrtarget : getResourceRecordTarget r = some t)
    (hmiss₁ : ∀ r' ∈ l₁, misses (trimSuffixDot record.spec.dnsName) t r')
    (hmiss₂ : ∀ r' ∈ l₂, misses (trimSuffixDot record.spec.dnsName) t r')
    (hupd : cb.updateErr 0 = false) :
    ((Ensure p cb record zone).ops.countP (fun op => op.isUpdate) = 1 ∧
     (Ensure p cb record zone).ops.countP (fun op => op.isCreate) = 0 ∧
     RemoteOp.updateResourceRecord p.instanceID ZONEIDFORTESTING r.id
       (trimSuffixDot record.spec.dnsName)
       (if record.spec.recordType == "CNAME" then .cnameRecord t else .aRecord t)
       (normalizeTTL record.spec.recordTTL) ∈ (Ensure p cb record zone).ops) ∧
    Replace p cb record zone = Ensure p cb record zone := by
  have hval : validateInputDNSData record zone = [] :=
    validateInputDNSData_eq_nil.mpr
      ⟨hname, htype, by rw [htargets]; exact List.cons_ne_nil t [], hzid⟩
  have hmain : Ensure p cb record zone =
      ⟨[RemoteOp.listResourceRecords p.instanceID ZONEIDFORTESTING,
        RemoteOp.updateResourceRecord p.instanceID ZONEIDFORTESTING r.id
          (trimSuffixDot record.spec.dnsName)
          (if record.spec.recordType == "CNAME" then .cnameRecord t else .aRecord t)
          (normalizeTTL record.spec.recordTTL)],
       normalizeRecordTTL record, none⟩ := by
    show createOrUpdateDNSRecord p cb record zone = _
    rw [createOrUpdateDNSRecord_of_valid p cb record zone hval hz]
    rw [normalizeRecordTTL_targets, htargets, normalizeRecordTTL_recordType,
      normalizeRecordTTL_recordTTL]
    rw [processTargets_single cb p.instanceID (trimSuffixDot record.spec.dnsName)
      record.spec.recordType (normalizeTTL record.spec.recordTTL) t CallState.start
      ⟨[RemoteOp.listResourceRecords p.instanceID ZONEIDFORTESTING,
        RemoteOp.updateResourceRecord p.instanceID ZONEIDFORTESTING r.id
          (trimSuffixDot record.spec.dnsName)
          (if record.spec.recordType == "CNAME" then .cnameRecord t else .aRecord t)
          (normalizeTTL record.spec.recordTTL)], 1, 1, 0, 0⟩ ?_]
    apply processTarget_update
    · exact noabort_of_listok hlistok
    · exact hlist
    · simp only [CallState.start, List.nil_append, Nat.zero_add]
      rw [scanRecords_append cb p.instanceID (trimSuffixDot record.spec.dnsName)
        record.spec.recordType (normalizeTTL record.spec.recordTTL) t l₁ (r :: l₂) false
        ⟨[RemoteOp.listResourceRecords p.instanceID ZONEIDFORTESTING], 1, 0, 0, 0⟩ false
        ⟨[RemoteOp.listResourceRecords p.instanceID ZONEIDFORTESTING], 1, 0, 0, 0⟩
        (scanRecords_misses cb p.instanceID (trimSuffixDot record.spec.dnsName)
          record.spec.recordType (normalizeTTL record.spec.recordTTL) t l₁ hmiss₁ false
          ⟨[RemoteOp.listResourceRecords p.instanceID ZONEIDFORTESTING], 1, 0, 0, 0⟩)]
      rw [scanRecords_cons_match cb p.instanceID (trimSuffixDot record.spec.dnsName)
        record.spec.recordType (normalizeTTL record.spec.recordTTL) t r l₂ false
        ⟨[RemoteOp.listResourceRecords p.instanceID ZONEIDFORTESTING], 1, 0, 0, 0⟩
        hrname hrtarget hupd]
      exact scanRecords_misses cb p.instanceID (trimSuffixDot record.spec.dnsName)
        record.spec.recordType (normalizeTTL record.spec.recordTTL) t l₂ hmiss₂ true _
  refine ⟨⟨?_, ?_, ?_⟩, rfl⟩
  · rw [hmain]
    rfl
  · rw [hmain]
    rfl
  · rw [hmain]
    exact List.mem_cons_of_mem _ (List.mem_cons_self _ _)

theorem C1_update_on_match_witness :
    ((Ensure sampleProvider (cbWith [rrMatch]) recordUpdate sampleZone).ops.countP
        (fun op => op.isUpdate) = 1 ∧
     (Ensure sampleProvider (cbWith [rrMatch]) recordUpdate sampleZone).ops.countP
        (fun op => op.isCreate) = 0 ∧
     RemoteOp.updateResourceRecord sampleProvider.instanceID ZONEIDFORTESTING rrMatch.id
       (trimSuffixDot recordUpdate.spec.dnsName)
       (if recordUpdate.spec.recordType == "CNAME" then .cnameRecord "11.22.33.44"
        else .aRecord "11.22.33.44")
       (normalizeTTL recordUpdate.spec.recordTTL) ∈
       (Ensure sampleProvider (cbWith [rrMatch]) recordUpdate sampleZone).ops) ∧
    Replace sampleProvider (cbWith [rrMatch]) recordUpdate sampleZone =
      Ensure sampleProvider (cbWith [rrMatch]) recordUpdate sampleZone :=
  C1_update_on_match sampleProvider (cbWith [rrMatch]) recordUpdate sampleZone
    "11.22.33.44" rrMatch [] []
    (by decide) (by decide) rfl (by decide) (by decide)
    rfl rfl (by decide) (by decide)
    (fun r' hr' => absurd hr' (List.not_mem_nil r'))
    (fun r' hr' => absurd hr' (List.not_mem_nil r'))
    rfl

theorem processTarget_invalid_result (cb : ClientBehavior)
    (instanceID dnsName rtype : String) (ttl : Int) (st : CallState) (target : String)
    (hnoabort : (cb.listErr st.listIdx && responseNon404 (cb.listResponse st.listIdx)) = false)
    (hres : cb.listResult st.listIdx = none) :
    processTarget cb instanceID dnsName rtype ttl st target =
      .error ({ st with
        ops := st.ops ++ [.listResourceRecords instanceID ZONEIDFORTESTING],
        listIdx := st.listIdx + 1 }, .invalidResult) := by
  simp only [processTarget, hnoabort, Bool.false_eq_true, if_false, hres]

theorem processTargets_cons_error (cb : ClientBehavior) (instanceID dnsName rtype : String)
    (ttl : Int) (t : String) (ts : List String) (st : CallState)
    (e : CallState × ProviderError)
    (h : processTarget cb instanceID dnsName rtype ttl st t = .error e) :
    processTargets cb instanceID dnsName rtype ttl (t :: ts) st = .error e := by
  simp only [processTargets, h]

theorem ensure_of_empty_list (p : Provider) (cb : ClientBehavior) (record : DNSRecord)
    (zone : DNSZone) (t : String)
    (hval : validateInputDNSData record zone = []) (hz : zone.id ∈ p.dnsServices)
    (htargets : record.spec.targets = [t])
    (hnoabort : (cb.listErr 0 && responseNon404 (cb.listResponse 0)) = false)
    (hlist : cb.listResult 0 = some [])
    (hcr : cb.createErr 0 = false) :
    Ensure p cb record zone =
      ⟨[RemoteOp.listResourceRecords p.instanceID ZONEIDFORTESTING,
        RemoteOp.createResourceRecord p.instanceID ZONEIDFORTESTING
          (trimSuffixDot record.spec.dnsName) record.spec.recordType
          (if record.spec.recordType == "CNAME" then .cnameRecord t else .aRecord t)
          (normalizeTTL record.spec.recordTTL)],
       normalizeRecordTTL record, none⟩ := by
  show createOrUpdateDNSRecord p cb record zone = _
  rw [createOrUpdateDNSRecord_of_valid p cb record zone hval hz]
  rw [normalizeRecordTTL_targets, htargets, normalizeRecordTTL_recordType,
    normalizeRecordTTL_recordTTL]
  rw [processTargets_single cb p.instanceID (trimSuffixDot record.spec.dnsName)
    record.spec.recordType (normalizeTTL record.spec.recordTTL) t CallState.start
    ⟨[RemoteOp.listResourceRecords p.instanceID ZONEIDFORTESTING,
      RemoteOp.createResourceRecord p.instanceID ZONEIDFORTESTING
        (trimSuffixDot record.spec.dnsName) record.spec.recordType
        (if record.spec.recordType == "CNAME" then .cnameRecord t else .aRecord t)
        (normalizeTTL record.spec.recordTTL)], 1, 0, 1, 0⟩ ?_]
  refine processTarget_create cb p.instanceID (trimSuffixDot record.spec.dnsName)
    record.spec.recordType (normalizeTTL record.spec.recordTTL) CallState.start t []
    ⟨[RemoteOp.listResourceRecords p.instanceID ZONEIDFORTESTING], 1, 0, 0, 0⟩
    hnoabort hlist ?_ hcr
  exact scanRecords_misses cb p.instanceID (trimSuffixDot record.spec.dnsName)
    record.spec.recordType (normalizeTTL record.spec.recordTTL) t []
    (fun r' hr' => absurd hr' (List.not_mem_nil r')) false _

/-- C2: with one desired target and an empty remote record list, `Ensure`
issues exactly one create for that target and zero updates, and returns no
error. -/
theorem C2_create_on_empty (p : Provider) (cb : ClientBehavior) (record : DNSRecord)
    (zone : DNSZone) (t : String)
    (hname : record.spec.dnsName ≠ "") (htype : record.spec.recordType ≠ "")
    (htargets : record.spec.targets = [t]) (hzid : zone.id ≠ "")
    (hz : zone.id ∈ p.dnsServices)
    (hlistok : cb.listErr 0 = false)
    (hlist : cb.listResult 0 = some [])
    (hcr : cb.createErr 0 = false) :
    (Ensure p cb record zone).ops.countP (fun op => op.isCreate) = 1 ∧
    (Ensure p cb record zone).ops.countP (fun op => op.isUpdate) = 0 ∧
    RemoteOp.createResourceRecord p.instanceID ZONEIDFORTESTING
      (trimSuffixDot record.spec.dnsName) record.spec.recordType
      (if record.spec.recordType == "CNAME" then .cnameRecord t else .aRecord t)
      (normalizeTTL record.spec.recordTTL) ∈ (Ensure p cb record zone).ops ∧
    (Ensure p cb record zone).err = none := by
  have hval : validateInputDNSData record zone = [] :=
    validateInputDNSData_eq_nil.mpr
      ⟨hname, htype, by rw [htargets]; exact List.cons_ne_nil t [], hzid⟩
  have hmain := ensure_of_empty_list p cb record zone t hval hz htargets
    (noabort_of_listok hlistok) hlist hcr
  refine ⟨?_, ?_, ?_, ?_⟩
  · rw [hmain]
    rfl
  · rw [hmain]
    rfl
  · rw [hmain]
    exact List.mem_cons_of_mem _ (List.mem_cons_self _ _)
  · rw [hmain]

theorem C2_create_on_empty_witness :
    (Ensure sampleProvider (cbWith []) recordCreate sampleZone).ops.countP
      (fun op => op.isCreate) = 1 ∧
    (Ensure sampleProvider (cbWith []) recordCreate sampleZone).ops.countP
      (fun op => op.isUpdate) = 0 ∧
    RemoteOp.createResourceRecord sampleProvider.instanceID ZONEIDFORTESTING
      (trimSuffixDot recordCreate.spec.dnsName) recordCreate.spec.recordType
      (if recordCreate.spec.recordType == "CNAME" then .cnameRecord "11.22.33.44"
       else .aRecord "11.22.33.44")
      (normalizeTTL recordCreate.spec.recordTTL) ∈
      (Ensure sampleProvider (cbWith []) recordCreate sampleZone).ops ∧
    (Ensure sampleProvider (cbWith []) recordCreate sampleZone).err = none :=
  C2_create_on_empty sampleProvider (cbWith []) recordCreate sampleZone "11.22.33.44"
    (by decide) (by decide) rfl (by decide) (by decide) rfl rfl rfl

theorem deleteRecordsLoop_ok_404 (cb : ClientBehavior) (instanceID dnsName target : String)
    (h404 : ∀ k, cb.deleteResponse k = some 404) (l : List ResourceRecord) :
    ∀ st, (∀ r ∈ l, (getResourceRecordTarget r).isSome) →
      ∃ st', deleteRecordsLoop cb instanceID dnsName target l st = .ok st' := by
  induction l with
  | nil =>
    intro st _
    exact ⟨st, rfl⟩
  | cons r rs ih =>
    intro st hparse
    obtain ⟨v, hv⟩ := Option.isSome_iff_exists.mp (hparse r (List.mem_cons_self r rs))
    have hrest := fun st' => ih st' (fun r' hr' => hparse r' (List.mem_cons_of_mem _ hr'))
    simp only [deleteRecordsLoop, hv, h404, responseNon404_404, Bool.and_false,
      Bool.false_eq_true, if_false]
    by_cases hc : ((v == target) && (r.name == dnsName)) = true
    · rw [if_pos hc]
      exact hrest _
    · rw [if_neg hc]
      exact hrest st

theorem deleteTargetsLoop_ok_404 (cb : ClientBehavior) (instanceID dnsName : String)
    (records : List ResourceRecord)
    (hparse : ∀ r ∈ records, (getResourceRecordTarget r).isSome)
    (h404 : ∀ k, cb.deleteResponse k = some 404) :
    ∀ (ts : List String) (st : CallState),
      ∃ st', deleteTargetsLoop cb instanceID dnsName records ts st = .ok st' := by
  intro ts
  induction ts with
  | nil =>
    intro st
    exact ⟨st, rfl⟩
  | cons t ts ih =>
    intro st
    obtain ⟨st1, h1⟩ :=
      deleteRecordsLoop_ok_404 cb instanceID dnsName t h404 records st hparse
    obtain ⟨st2, h2⟩ := ih st1
    exact ⟨st2, by simp only [deleteTargetsLoop, h1, h2]⟩

/-- C7: when every remote delete call responds 404 — even together with a
non-nil error — `Delete` treats the deletions as success-equivalent and
returns a nil error. -/
theorem C7_delete_404_success (p : Provider) (cb : ClientBehavior) (record : DNSRecord)
    (zone : DNSZone) (rs : List ResourceRecord)
    (hname : record.spec.dnsName ≠ "") (htype : record.spec.recordType ≠ "")
    (htargets : record.spec.targets ≠ []) (hzid : zone.id ≠ "")
    (hz : zone.id ∈ p.dnsServices)
    (hlistok : cb.listErr 0 = false)
    (hlist : cb.listResult 0 = some rs)
    (hparse : ∀ r ∈ rs, (getResourceRecordTarget r).isSome)
    (h404 : ∀ k, cb.deleteResponse k = some 404) :
    (Delete p cb record zone).err = none := by
  have hval : validateInputDNSData record zone = [] :=
    validateInputDNSData_eq_nil.mpr ⟨hname, htype, htargets, hzid⟩
  obtain ⟨st', hloop⟩ :=
    deleteTargetsLoop_ok_404 cb p.instanceID (trimSuffixDot record.spec.dnsName) rs hparse
      h404 record.spec.targets
      { CallState.start with
        ops := [.listResourceRecords p.instanceID ZONEIDFORTESTING], listIdx := 1 }
  rw [delete_of_valid p cb record zone hval hz (noabort_of_listok hlistok)]
  simp only [hlist, hloop]

theorem C7_delete_404_success_witness :
    (Delete sampleProvider (cbDelete404 [rrDelete]) recordDelete sampleZone).err = none :=
  C7_delete_404_success sampleProvider (cbDelete404 [rrDelete]) recordDelete sampleZone
    [rrDelete] (by decide) (by decide) (by decide) (by decide) (by decide) rfl rfl
    (by decide) (fun k => rfl)

/-- C8 counterexample: a list call that fails with a 404 response and a nil
result makes both `Ensure` and `Delete` abort with the invalid-result error;
they do not proceed with an empty record set and no error, as the claim
states. -/
theorem C8_list_404_counterexample :
    cbList404Nil.listErr 0 = true ∧ cbList404Nil.listResponse 0 = some 404 ∧
    (Ensure sampleProvider cbList404Nil recordCreate sampleZone).err =
      some .invalidResult ∧
    (Delete sampleProvider cbList404Nil recordCreate sampleZone).err =
      some .invalidResult := by
  decide

/-- C8 amended: a 404-failing list call is tolerated only through the
result pointer: when the returned result is non-nil (here: empty), `Ensure`
proceeds to create and `Delete` proceeds, both without error; when the
returned result is nil, both abort with an invalid-result error. -/
theorem C8_list_404_amended (p : Provider) (cb : ClientBehavior) (record : DNSRecord)
    (zone : DNSZone) (t : String)
    (hname : record.spec.dnsName ≠ "") (htype : record.spec.recordType ≠ "")
    (htargets : record.spec.targets = [t]) (hzid : zone.id ≠ "")
    (hz : zone.id ∈ p.dnsServices)
    (herr : cb.listErr 0 = true) (hresp : cb.listResponse 0 = some 404) :
    (cb.listResult 0 = some [] → cb.createErr 0 = false →
      (Ensure p cb record zone).err = none ∧
      (Ensure p cb record zone).ops.countP (fun op => op.isCreate) = 1 ∧
      (Delete p cb record zone).err = none) ∧
    (cb.listResult 0 = none →
      (Ensure p cb record zone).err = some .invalidResult ∧
      (Delete p cb record zone).err = some .invalidResult) := by
  have hval : validateInputDNSData record zone = [] :=
    validateInputDNSData_eq_nil.mpr
      ⟨hname, htype, by rw [htargets]; exact List.cons_ne_nil t [], hzid⟩
  constructor
  · intro hlistE hcr
    have hmain := ensure_of_empty_list p cb record zone t hval hz htargets
      (noabort_of_404 hresp) hlistE hcr
    refine ⟨by rw [hmain], by rw [hmain]; rfl, ?_⟩
    rw [delete_of_valid p cb record zone hval hz (noabort_of_404 hresp)]
    simp only [hlistE, htargets]
    rfl
  · intro hlistN
    constructor
    · show (createOrUpdateDNSRecord p cb record zone).err = _
      rw [createOrUpdateDNSRecord_of_valid p cb record zone hval hz]
      rw [normalizeRecordTTL_targets, htargets, normalizeRecordTTL_recordType,
        normalizeRecordTTL_recordTTL]
      rw [processTargets_cons_error cb p.instanceID (trimSuffixDot record.spec.dnsName)
        record.spec.recordType (normalizeTTL record.spec.recordTTL) t [] CallState.start
        ({ CallState.start with
           ops := CallState.start.ops ++
             [.listResourceRecords p.instanceID ZONEIDFORTESTING],
           listIdx := CallState.start.listIdx + 1 }, .invalidResult)
        (processTarget_invalid_result cb p.instanceID (trimSuffixDot record.spec.dnsName)
          record.spec.recordType (normalizeTTL record.spec.recordTTL) CallState.start t
          (noabort_of_404 hresp) hlistN)]
    · rw [delete_of_valid p cb record zone hval hz (noabort_of_404 hresp)]
      simp only [hlistN]

theorem C8_list_404_amended_witness :
    (Ensure sampleProvider cbList404Empty recordCreate sampleZone).err = none ∧
    (Ensure sampleProvider cbList404Empty recordCreate sampleZone).ops.countP
      (fun op => op.isCreate) = 1 ∧
    (Delete sampleProvider cbList404Empty recordCreate sampleZone).err = none :=
  (C8_list_404_amended sampleProvider cbList404Empty recordCreate sampleZone "11.22.33.44"
    (by decide) (by decide) rfl (by decide) (by decide) rfl rfl).1 rfl rfl

theorem getResourceRecordTarget_of_other {r : ResourceRecord}
    (ht : r.rtype = "A" ∨ r.rtype = "CNAME") (hd : r.rdata = .other) :
    getResourceRecordTarget r = none := by
  rcases ht with h | h
  · have h1 : (r.rtype == "CNAME") = false := by rw [h]; rfl
    have h2 : (r.rtype == "A") = true := by rw [h]; rfl
    simp only [getResourceRecordTarget, h1, Bool.false_eq_true, if_false, h2, if_true, hd]
  · have h1 : (r.rtype == "CNAME") = true := by rw [h]; rfl
    simp only [getResourceRecordTarget, h1, if_true, hd]

theorem scanRecords_cons_malformed (cb : ClientBehavior)
    (instanceID dnsName rtype : String) (ttl : Int) (target : String) (r : ResourceRecord)
    (l : List ResourceRecord) (update : Bool) (st : CallState)
    (hg : getResourceRecordTarget r = none) :
    scanRecords cb instanceID dnsName rtype ttl target (r :: l) update st =
      .error (st, .malformedRData) := by
  simp only [scanRecords, hg]

theorem processTarget_scan_error (cb : ClientBehavior) (instanceID dnsName rtype : String)
    (ttl : Int) (st : CallState) (target : String) (records : List ResourceRecord)
    (e : CallState × ProviderError)
    (hnoabort : (cb.listErr st.listIdx && responseNon404 (cb.listResponse st.listIdx)) = false)
    (hres : cb.listResult st.listIdx = some records)
    (hscan : scanRecords cb instanceID dnsName rtype ttl target records false
      { st with
        ops := st.ops ++ [.listResourceRecords instanceID ZONEIDFORTESTING],
        listIdx := st.listIdx + 1 } = .error e) :
    processTarget cb instanceID dnsName rtype ttl st target = .error e := by
  simp only [processTarget, hnoabort, Bool.false_eq_true, if_false, hres, hscan]

theorem deleteRecordsLoop_cons_malformed (cb : ClientBehavior)
    (instanceID dnsName target : String) (r : ResourceRecord) (l : List ResourceRecord)
    (st : CallState) (hg : getResourceRecordTarget r = none) :
    deleteRecordsLoop cb instanceID dnsName target (r :: l) st =
      .error (st, .malformedRData) := by
  simp only [deleteRecordsLoop, hg]

theorem deleteRecordsLoop_misses (cb : ClientBehavior) (instanceID dnsName target : String)
    (l : List ResourceRecord) (h : ∀ r ∈ l, misses dnsName target r) (st : CallState) :
    deleteRecordsLoop cb instanceID dnsName target l st = .ok st := by
  induction l with
  | nil => rfl
  | cons r rs ih =>
    obtain ⟨v, hv, hnm⟩ := h r (List.mem_cons_self r rs)
    have hcond : ((v == target) && (r.name == dnsName)) ≠ true := by
      intro hc
      rw [Bool.and_eq_true, beq_iff_eq, beq_iff_eq] at hc
      exact hnm ⟨hc.2, hc.1⟩
    simp only [deleteRecordsLoop, hv]
    rw [if_neg hcond]
    exact ih (fun r' hr' => h r' (List.mem_cons_of_mem _ hr'))

theorem deleteRecordsLoop_append (cb : ClientBehavior) (instanceID dnsName target : String)
    (l₁ l₂ : List ResourceRecord) (st st' : CallState)
    (h : deleteRecordsLoop cb instanceID dnsName target l₁ st = .ok st') :
    deleteRecordsLoop cb instanceID dnsName target (l₁ ++ l₂) st =
      deleteRecordsLoop cb instanceID dnsName target l₂ st' := by
  induction l₁ generalizing st with
  | nil =>
    simp only [deleteRecordsLoop, Except.ok.injEq] at h
    subst h
    rw [List.nil_append]
  | cons r rs ih =>
    cases hg : getResourceRecordTarget r with
    | none =>
      simp only [deleteRecordsLoop, hg] at h
      exact Except.noConfusion h
    | some v =>
      simp only [deleteRecordsLoop, List.cons_append, hg] at h ⊢
      by_cases hc : ((v == target) && (r.name == dnsName)) = true
      · rw [if_pos hc] at h ⊢
        by_cases he : (cb.deleteErr st.deleteIdx &&
            responseNon404 (cb.deleteResponse st.deleteIdx)) = true
        · rw [if_pos he] at h
          exact Except.noConfusion h
        · rw [if_neg he] at h ⊢
          exact ih _ h
      · rw [if_neg hc] at h ⊢
        exact ih _ h

theorem deleteTargetsLoop_cons_error (cb : ClientBehavior) (instanceID dnsName : String)
    (records : List ResourceRecord) (t : String) (ts : List String) (st : CallState)
    (e : CallState × ProviderError)
    (h : deleteRecordsLoop cb instanceID dnsName t records st = .error e) :
    deleteTargetsLoop cb instanceID dnsName records (t :: ts) st = .error e := by
  simp only [deleteTargetsLoop, h]

/-- C3 counterexample: a listed remote record of the unrecognized type
"TXT" whose payload is not a map is silently skipped during matching —
`Ensure` and `Delete` return nil errors instead of aborting with a
malformed-record error. -/
theorem C3_malformed_counterexample :
    rrTXT.rdata = .other ∧
    (Ensure sampleProvider (cbWith [rrTXT]) recordCreate sampleZone).err = none ∧
    (Delete sampleProvider (cbWith [rrTXT]) recordCreate sampleZone).err = none := by
  decide

/-- C3 amended: only a listed remote record of type A or CNAME whose Rdata
payload is not castable to a map aborts the reconcile call (`Ensure` or
`Delete`) with the malformed-record error; records of other types with
unrecognized payloads are silently skipped during matching. -/
theorem C3_malformed_A_CNAME (p : Provider) (cb : ClientBehavior) (record : DNSRecord)
    (zone : DNSZone) (t : String) (ts : List String) (l₁ l₂ : List ResourceRecord)
    (r : ResourceRecord)
    (hname : record.spec.dnsName ≠ "") (htype : record.spec.recordType ≠ "")
    (htargets : record.spec.targets = t :: ts) (hzid : zone.id ≠ "")
    (hz : zone.id ∈ p.dnsServices)
    (hlistok : cb.listErr 0 = false)
    (hlist : cb.listResult 0 = some (l₁ ++ r :: l₂))
    (hmiss₁ : ∀ r' ∈ l₁, misses (trimSuffixDot record.spec.dnsName) t r')
    (hrt : r.rtype = "A" ∨ r.rtype = "CNAME") (hrd : r.rdata = .other) :
    (Ensure p cb record zone).err = some .malformedRData ∧
    (Delete p cb record zone).err = some .malformedRData := by
  have hval : validateInputDNSData record zone = [] :=
    validateInputDNSData_eq_nil.mpr
      ⟨hname, htype, by rw [htargets]; exact List.cons_ne_nil t ts, hzid⟩
  have hg := getResourceRecordTarget_of_other hrt hrd
  constructor
  · show (createOrUpdateDNSRecord p cb record zone).err = _
    rw [createOrUpdateDNSRecord_of_valid p cb record zone hval hz]
    rw [normalizeRecordTTL_targets, htargets, normalizeRecordTTL_recordType,
      normalizeRecordTTL_recordTTL]
    rw [processTargets_cons_error cb p.instanceID (trimSuffixDot record.spec.dnsName)
      record.spec.recordType (normalizeTTL record.spec.recordTTL) t ts CallState.start
      (⟨[RemoteOp.listResourceRecords p.instanceID ZONEIDFORTESTING], 1, 0, 0, 0⟩,
        .malformedRData) ?_]
    refine processTarget_scan_error cb p.instanceID (trimSuffixDot record.spec.dnsName)
      record.spec.recordType (normalizeTTL record.spec.recordTTL) CallState.start t
      (l₁ ++ r :: l₂) _ (noabort_of_listok hlistok) hlist ?_
    simp only [CallState.start, List.nil_append, Nat.zero_add]
    rw [scanRecords_append cb p.instanceID (trimSuffixDot record.spec.dnsName)
      record.spec.recordType (normalizeTTL record.spec.recordTTL) t l₁ (r :: l₂) false
      ⟨[RemoteOp.listResourceRecords p.instanceID ZONEIDFORTESTING], 1, 0, 0, 0⟩ false
      ⟨[RemoteOp.listResourceRecords p.instanceID ZONEIDFORTESTING], 1, 0, 0, 0⟩
      (scanRecords_misses cb p.instanceID (trimSuffixDot record.spec.dnsName)
        record.spec.recordType (normalizeTTL record.spec.recordTTL) t l₁ hmiss₁ false
        ⟨[RemoteOp.listResourceRecords p.instanceID ZONEIDFORTESTING], 1, 0, 0, 0⟩)]
    exact scanRecords_cons_malformed cb p.instanceID (trimSuffixDot record.spec.dnsName)
      record.spec.recordType (normalizeTTL record.spec.recordTTL) t r l₂ false
      ⟨[RemoteOp.listResourceRecords p.instanceID ZONEIDFORTESTING], 1, 0, 0, 0⟩ hg
  · rw [delete_of_valid p cb record zone hval hz (noabort_of_listok hlistok)]
    simp only [hlist, htargets]
    rw [deleteTargetsLoop_cons_error cb p.instanceID (trimSuffixDot record.spec.dnsName)
      (l₁ ++ r :: l₂) t ts
      { CallState.start with
        ops := [.listResourceRecords p.instanceID ZONEIDFORTESTING], listIdx := 1 }
      (⟨[RemoteOp.listResourceRecords p.instanceID ZONEIDFORTESTING], 1, 0, 0, 0⟩,
        .malformedRData) ?_]
    simp only [CallState.start]
    rw [deleteRecordsLoop_append cb p.instanceID (trimSuffixDot record.spec.dnsName) t
      l₁ (r :: l₂)
      ⟨[RemoteOp.listResourceRecords p.instanceID ZONEIDFORTESTING], 1, 0, 0, 0⟩
      ⟨[RemoteOp.listResourceRecords p.instanceID ZONEIDFORTESTING], 1, 0, 0, 0⟩
      (deleteRecordsLoop_misses cb p.instanceID (trimSuffixDot record.spec.dnsName) t l₁
        hmiss₁
        ⟨[RemoteOp.listResourceRecords p.instanceID ZONEIDFORTESTING], 1, 0, 0, 0⟩)]
    exact deleteRecordsLoop_cons_malformed cb p.instanceID
      (trimSuffixDot record.spec.dnsName) t r l₂
      ⟨[RemoteOp.listResourceRecords p.instanceID ZONEIDFORTESTING], 1, 0, 0, 0⟩ hg

theorem C3_malformed_A_CNAME_witness :
    (Ensure sampleProvider (cbWith [rrBadA]) recordCreate sampleZone).err =
      some .malformedRData ∧
    (Delete sampleProvider (cbWith [rrBadA]) recordCreate sampleZone).err =
      some .malformedRData :=
  C3_malformed_A_CNAME sampleProvider (cbWith [rrBadA]) recordCreate sampleZone
    "11.22.33.44" [] [] [] rrBadA (by decide) (by decide) rfl (by decide) (by decide)
    rfl rfl (fun r' hr' => absurd hr' (List.not_mem_nil r')) (Or.inl rfl) rfl

/-- C10: for calls that pass validation and zone lookup, a requested TTL
outside the allowed set makes `Ensure`/`Replace` mutate the caller's record
in place to TTL 120, leaving name, type and targets unchanged; a TTL inside
the set leaves the record unmodified. -/
theorem C10_ttl_mutation (p : Provider) (cb : ClientBehavior) (record : DNSRecord)
    (zone : DNSZone)
    (hname : record.spec.dnsName ≠ "") (htype : record.spec.recordType ≠ "")
    (htargets : record.spec.targets ≠ []) (hzid : zone.id ≠ "")
    (hz : zone.id ∈ p.dnsServices) :
    (record.spec.recordTTL ∉ allowedTTLs →
      (Ensure p cb record zone).record =
        ⟨⟨record.spec.dnsName, record.spec.recordType, record.spec.targets, 120⟩⟩ ∧
      (Replace p cb record zone).record =
        ⟨⟨record.spec.dnsName, record.spec.recordType, record.spec.targets, 120⟩⟩) ∧
    (record.spec.recordTTL ∈ allowedTTLs →
      (Ensure p cb record zone).record = record ∧
      (Replace p cb record zone).record = record) := by
  have hval : validateInputDNSData record zone = [] :=
    validateInputDNSData_eq_nil.mpr ⟨hname, htype, htargets, hzid⟩
  have hrec : (Ensure p cb record zone).record = normalizeRecordTTL record := by
    show (createOrUpdateDNSRecord p cb record zone).record = _
    rw [createOrUpdateDNSRecord_of_valid p cb record zone hval hz]
    cases hp : processTargets cb p.instanceID (trimSuffixDot record.spec.dnsName)
        (normalizeRecordTTL record).spec.recordType
        (normalizeRecordTTL record).spec.recordTTL
        (normalizeRecordTTL record).spec.targets CallState.start with
    | error e =>
      obtain ⟨st2, e2⟩ := e
      rfl
    | ok st => rfl
  have hrecR : (Replace p cb record zone).record = normalizeRecordTTL record := hrec
  constructor
  · intro h
    have hn : normalizeRecordTTL record =
        ⟨⟨record.spec.dnsName, record.spec.recordType, record.spec.targets, 120⟩⟩ := by
      unfold normalizeRecordTTL
      rw [useDefaultTTL_of_not_mem h]
      rfl
    exact ⟨hrec.trans hn, hrecR.trans hn⟩
  · intro h
    have hn : normalizeRecordTTL record = record := by
      unfold normalizeRecordTTL
      rw [useDefaultTTL_of_mem h]
      rfl
    exact ⟨hrec.trans hn, hrecR.trans hn⟩

theorem C10_ttl_mutation_witness :
    (Ensure sampleProvider (cbWith []) ⟨⟨"testCreate", "A", ["11.22.33.44"], 100⟩⟩
      sampleZone).record = ⟨⟨"testCreate", "A", ["11.22.33.44"], 120⟩⟩ ∧
    (Ensure sampleProvider (cbWith []) recordCreate sampleZone).record = recordCreate :=
  ⟨((C10_ttl_mutation sampleProvider (cbWith [])
      ⟨⟨"testCreate", "A", ["11.22.33.44"], 100⟩⟩ sampleZone
      (by decide) (by decide) (by decide) (by decide) (by decide)).1 (by decide)).1,
   ((C10_ttl_mutation sampleProvider (cbWith []) recordCreate sampleZone
      (by decide) (by decide) (by decide) (by decide) (by decide)).2 (by decide)).1⟩

theorem validateInputDNSData_zone_eq (record : DNSRecord) (z1 z2 : DNSZone)
    (hn1 : z1.id ≠ "") (hn2 : z2.id ≠ "") :
    validateInputDNSData record z1 = validateInputDNSData record z2 := by
  unfold validateInputDNSData
  rw [if_neg (fun hc => hn1 ((length_eq_zero_iff _).mp hc)),
    if_neg (fun hc => hn2 ((length_eq_zero_iff _).mp hc))]

theorem scanRecords_zone (cb : ClientBehavior) (instanceID dnsName rtype : String)
    (ttl : Int) (target : String) (l : List ResourceRecord) :
    ∀ (u : Bool) (st : CallState), (∀ op ∈ st.ops, op.zoneID = ZONEIDFORTESTING) →
      ∀ op ∈ (exceptStateScan
          (scanRecords cb instanceID dnsName rtype ttl target l u st)).ops,
        op.zoneID = ZONEIDFORTESTING := by
  induction l with
  | nil =>
    intro u st hst
    exact hst
  | cons r rs ih =>
    intro u st hst
    cases hg : getResourceRecordTarget r with
    | none =>
      simp only [scanRecords, hg]
      exact hst
    | some v =>
      simp only [scanRecords, hg]
      by_cases hc : ((r.name == dnsName) && (v == target)) = true
      · rw [if_pos hc]
        have hst' : ∀ op ∈ (st.ops ++
            [RemoteOp.updateResourceRecord instanceID ZONEIDFORTESTING r.id dnsName
              (if rtype == "CNAME" then .cnameRecord target else .aRecord target) ttl]),
            op.zoneID = ZONEIDFORTESTING := by
          intro op hop
          rcases List.mem_append.mp hop with h | h
          · exact hst op h
          · rw [List.mem_singleton.mp h]
            rfl
        by_cases he : cb.updateErr st.updateIdx = true
        · rw [if_pos he]
          exact hst'
        · rw [if_neg he]
          exact ih true _ hst'
      · rw [if_neg hc]
        exact ih u st hst

theorem processTarget_zone (cb : ClientBehavior) (instanceID dnsName rtype : String)
    (ttl : Int) (st : CallState) (target : String)
    (hst : ∀ op ∈ st.ops, op.zoneID = ZONEIDFORTESTING) :
    ∀ op ∈ (exceptState (processTarget cb instanceID dnsName rtype ttl st target)).ops,
      op.zoneID = ZONEIDFORTESTING := by
  have hst1 : ∀ op ∈ (st.ops ++
      [RemoteOp.listResourceRecords instanceID ZONEIDFORTESTING]),
      op.zoneID = ZONEIDFORTESTING := by
    intro op hop
    rcases List.mem_append.mp hop with h | h
    · exact hst op h
    · rw [List.mem_singleton.mp h]
      rfl
  simp only [processTarget]
  by_cases hb : (cb.listErr st.listIdx && responseNon404 (cb.listResponse st.listIdx)) = true
  · rw [if_pos hb]
    exact hst1
  · rw [if_neg hb]
    cases hr : cb.listResult st.listIdx with
    | none => exact hst1
    | some records =>
      dsimp only
      have hscan := scanRecords_zone cb instanceID dnsName rtype ttl target records false
        { st with
          ops := st.ops ++ [RemoteOp.listResourceRecords instanceID ZONEIDFORTESTING],
          listIdx := st.listIdx + 1 } hst1
      cases hs : scanRecords cb instanceID dnsName rtype ttl target records false
          { st with
            ops := st.ops ++ [RemoteOp.listResourceRecords instanceID ZONEIDFORTESTING],
            listIdx := st.listIdx + 1 } with
      | error e =>
        rw [hs] at hscan
        obtain ⟨st2, e2⟩ := e
        exact hscan
      | ok pr =>
        rw [hs] at hscan
        obtain ⟨u2, st2⟩ := pr
        cases u2 with
        | true => exact hscan
        | false =>
          dsimp only
          have hst2 : ∀ op ∈ (st2.ops ++
              [RemoteOp.createResourceRecord instanceID ZONEIDFORTESTING dnsName rtype
                (if rtype == "CNAME" then .cnameRecord target else .aRecord target) ttl]),
              op.zoneID = ZONEIDFORTESTING := by
            intro op hop
            rcases List.mem_append.mp hop with h | h
            · exact hscan op h
            · rw [List.mem_singleton.mp h]
              rfl
          by_cases hcr : cb.createErr st2.createIdx = true
          · rw [if_pos hcr]
            exact hst2
          · rw [if_neg hcr]
            exact hst2

theorem processTargets_zone (cb : ClientBehavior) (instanceID dnsName rtype : String)
    (ttl : Int) (ts : List String) :
    ∀ st : CallState, (∀ op ∈ st.ops, op.zoneID = ZONEIDFORTESTING) →
      ∀ op ∈ (exceptState (processTargets cb instanceID dnsName rtype ttl ts st)).ops,
        op.zoneID = ZONEIDFORTESTING := by
  induction ts with
  | nil =>
    intro st hst
    exact hst
  | cons t ts ih =>
    intro st hst
    have hpt := processTarget_zone cb instanceID dnsName rtype ttl st t hst
    simp only [processTargets]
    cases hp : processTarget cb instanceID dnsName rtype ttl st t with
    | error e =>
      rw [hp] at hpt
      obtain ⟨st2, e2⟩ := e
      exact hpt
    | ok st' =>
      rw [hp] at hpt
      exact ih st' hpt

theorem deleteRecordsLoop_zone (cb : ClientBehavior) (instanceID dnsName target : String)
    (l : List ResourceRecord) :
    ∀ st : CallState, (∀ op ∈ st.ops, op.zoneID = ZONEIDFORTESTING) →
      ∀ op ∈ (exceptState (deleteRecordsLoop cb instanceID dnsName target l st)).ops,
        op.zoneID = ZONEIDFORTESTING := by
  induction l with
  | nil =>
    intro st hst
    exact hst
  | cons r rs ih =>
    intro st hst
    cases hg : getResourceRecordTarget r with
    | none =>
      simp only [deleteRecordsLoop, hg]
      exact hst
    | some v =>
      simp only [deleteRecordsLoop, hg]
      by_cases hc : ((v == target) && (r.name == dnsName)) = true
      · rw [if_pos hc]
        have hst' : ∀ op ∈ (st.ops ++
            [RemoteOp.deleteResourceRecord instanceID ZONEIDFORTESTING r.id]),
            op.zoneID = ZONEIDFORTESTING := by
          intro op hop
          rcases List.mem_append.mp hop with h | h
          · exact hst op h
          · rw [List.mem_singleton.mp h]
            rfl
        by_cases he : (cb.deleteErr st.deleteIdx &&
            responseNon404 (cb.deleteResponse st.deleteIdx)) = true
        · rw [if_pos he]
          exact hst'
        · rw [if_neg he]
          exact ih _ hst'
      · rw [if_neg hc]
        exact ih st hst

theorem deleteTargetsLoop_zone (cb : ClientBehavior) (instanceID dnsName : String)
    (records : List ResourceRecord) (ts : List String) :
    ∀ st : CallState, (∀ op ∈ st.ops, op.zoneID = ZONEIDFORTESTING) →
      ∀ op ∈ (exceptState (deleteTargetsLoop cb instanceID dnsName records ts st)).ops,
        op.zoneID = ZONEIDFORTESTING := by
  induction ts with
  | nil =>
    intro st hst
    exact hst
  | cons t ts ih =>
    intro st hst
    have hdl := deleteRecordsLoop_zone cb instanceID dnsName t records st hst
    simp only [deleteTargetsLoop]
    cases hp : deleteRecordsLoop cb instanceID dnsName t records st with
    | error e =>
      rw [hp] at hdl
      obtain ⟨st2, e2⟩ := e
      exact hdl
    | ok st' =>
      rw [hp] at hdl
      exact ih st' hdl

theorem createOrUpdateDNSRecord_zone (p : Provider) (cb : ClientBehavior)
    (record : DNSRecord) (zone : DNSZone) :
    ∀ op ∈ (createOrUpdateDNSRecord p cb record zone).ops,
      op.zoneID = ZONEIDFORTESTING := by
  by_cases hval : validateInputDNSData record zone = []
  · by_cases hz : zone.id ∈ p.dnsServices
    · rw [createOrUpdateDNSRecord_of_valid p cb record zone hval hz]
      have hall := processTargets_zone cb p.instanceID (trimSuffixDot record.spec.dnsName)
        (normalizeRecordTTL record).spec.recordType
        (normalizeRecordTTL record).spec.recordTTL
        (normalizeRecordTTL record).spec.targets CallState.start
        (fun op hop => absurd hop (List.not_mem_nil op))
      cases hp : processTargets cb p.instanceID (trimSuffixDot record.spec.dnsName)
          (normalizeRecordTTL record).spec.recordType
          (normalizeRecordTTL record).spec.recordTTL
          (normalizeRecordTTL record).spec.targets CallState.start with
      | error e =>
        rw [hp] at hall
        obtain ⟨st2, e2⟩ := e
        exact hall
      | ok st =>
        rw [hp] at hall
        exact hall
    · have hc : p.dnsServices.contains zone.id = false := by
        cases hcc : p.dnsServices.contains zone.id
        · rfl
        · exact absurd (List.elem_iff.mp hcc) hz
      simp only [createOrUpdateDNSRecord, hval, List.isEmpty_nil, Bool.not_true,
        Bool.false_eq_true, if_false, hc, Bool.not_false, if_true]
      intro op hop
      exact absurd hop (List.not_mem_nil op)
  · have hbe : (validateInputDNSData record zone).isEmpty = false := by
      cases hl : validateInputDNSData record zone with
      | nil => exact absurd hl hval
      | cons a as => rfl
    simp only [createOrUpdateDNSRecord, hbe, Bool.not_false, if_true]
    intro op hop
    exact absurd hop (List.not_mem_nil op)

theorem delete_zone (p : Provider) (cb : ClientBehavior) (record : DNSRecord)
    (zone : DNSZone) :
    ∀ op ∈ (Delete p cb record zone).ops, op.zoneID = ZONEIDFORTESTING := by
  have hbase : ∀ op ∈ ((⟨[RemoteOp.listResourceRecords p.instanceID ZONEIDFORTESTING],
      1, 0, 0, 0⟩ : CallState)).ops, op.zoneID = ZONEIDFORTESTING := by
    intro op hop
    rw [List.mem_singleton.mp hop]
    rfl
  by_cases hval : validateInputDNSData record zone = []
  · by_cases hz : zone.id ∈ p.dnsServices
    · have hc : p.dnsServices.contains zone.id = true := List.elem_iff.mpr hz
      simp only [Delete, hval, List.isEmpty_nil, Bool.not_true, Bool.false_eq_true,
        if_false, hc, CallState.start]
      by_cases hb : (cb.listErr 0 && responseNon404 (cb.listResponse 0)) = true
      · rw [if_pos hb]
        exact hbase
      · rw [if_neg hb]
        cases hr : cb.listResult 0 with
        | none => exact hbase
        | some records =>
          dsimp only
          have hall := deleteTargetsLoop_zone cb p.instanceID
            (trimSuffixDot record.spec.dnsName) records record.spec.targets
            ⟨[RemoteOp.listResourceRecords p.instanceID ZONEIDFORTESTING], 1, 0, 0, 0⟩
            hbase
          cases hp : deleteTargetsLoop cb p.instanceID (trimSuffixDot record.spec.dnsName)
              records record.spec.targets
              ⟨[RemoteOp.listResourceRecords p.instanceID ZONEIDFORTESTING], 1, 0, 0, 0⟩ with
          | error e =>
            rw [hp] at hall
            obtain ⟨st2, e2⟩ := e
            exact hall
          | ok st =>
            rw [hp] at hall
            exact hall
    · have hc : p.dnsServices.contains zone.id = false := by
        cases hcc : p.dnsServices.contains zone.id
        · rfl
        · exact absurd (List.elem_iff.mp hcc) hz
      simp only [Delete, hval, List.isEmpty_nil, Bool.not_true, Bool.false_eq_true,
        if_false, hc, Bool.not_false, if_true]
      intro op hop
      exact absurd hop (List.not_mem_nil op)
  · have hbe : (validateInputDNSData record zone).isEmpty = false := by
      cases hl : validateInputDNSData record zone with
      | nil => exact absurd hl hval
      | cons a as => rfl
    simp only [Delete, hbe, Bool.not_false, if_true]
    intro op hop
    exact absurd hop (List.not_mem_nil op)

/-- C9: the supplied zone id is used only to select the per-zone client:
`Ensure`, `Replace` and `Delete` return identical results for any two
registered non-empty zone ids, and every remote operation issued carries
the constant `ZONEIDFORTESTING` as its zone id argument. -/
theorem C9_constant_zone (p : Provider) (cb : ClientBehavior) (record : DNSRecord)
    (z1 z2 : DNSZone)
    (h1 : z1.id ∈ p.dnsServices) (h2 : z2.id ∈ p.dnsServices)
    (hn1 : z1.id ≠ "") (hn2 : z2.id ≠ "") :
    Ensure p cb record z1 = Ensure p cb record z2 ∧
    Replace p cb record z1 = Replace p cb record z2 ∧
    Delete p cb record z1 = Delete p cb record z2 ∧
    (∀ op ∈ (Ensure p cb record z1).ops, op.zoneID = ZONEIDFORTESTING) ∧
    (∀ op ∈ (Delete p cb record z1).ops, op.zoneID = ZONEIDFORTESTING) := by
  have hv := validateInputDNSData_zone_eq record z1 z2 hn1 hn2
  have hc1 : p.dnsServices.contains z1.id = true := List.elem_iff.mpr h1
  have hc2 : p.dnsServices.contains z2.id = true := List.elem_iff.mpr h2
  have hEq : createOrUpdateDNSRecord p cb record z1 =
      createOrUpdateDNSRecord p cb record z2 := by
    cases hl : validateInputDNSData record z1 with
    | nil =>
      have hl2 : validateInputDNSData record z2 = [] := by
        rw [← hv]
        exact hl
      simp only [createOrUpdateDNSRecord, hl, hl2, List.isEmpty_nil, Bool.not_true,
        Bool.false_eq_true, if_false, hc1, hc2]
    | cons a as =>
      have hl2 : validateInputDNSData record z2 = a :: as := by
        rw [← hv]
        exact hl
      simp only [createOrUpdateDNSRecord, hl, hl2, List.isEmpty_cons, Bool.not_false,
        if_true]
  have hDelEq : Delete p cb record z1 = Delete p cb record z2 := by
    cases hl : validateInputDNSData record z1 with
    | nil =>
      have hl2 : validateInputDNSData record z2 = [] := by
        rw [← hv]
        exact hl
      simp only [Delete, hl, hl2, List.isEmpty_nil, Bool.not_true, Bool.false_eq_true,
        if_false, hc1, hc2]
    | cons a as =>
      have hl2 : validateInputDNSData record z2 = a :: as := by
        rw [← hv]
        exact hl
      simp only [Delete, hl, hl2, List.isEmpty_cons, Bool.not_false, if_true]
  exact ⟨hEq, hEq, hDelEq, createOrUpdateDNSRecord_zone p cb record z1,
    delete_zone p cb record z1⟩

theorem C9_constant_zone_witness :
    Ensure sampleProvider2 (cbWith []) recordCreate sampleZone =
      Ensure sampleProvider2 (cbWith []) recordCreate sampleZone2 ∧
    Delete sampleProvider2 (cbWith []) recordCreate sampleZone =
      Delete sampleProvider2 (cbWith []) recordCreate sampleZone2 :=
  ⟨(C9_constant_zone sampleProvider2 (cbWith []) recordCreate sampleZone sampleZone2
      (by decide) (by decide) (by decide) (by decide)).1,
   (C9_constant_zone sampleProvider2 (cbWith []) recordCreate sampleZone sampleZone2
      (by decide) (by decide) (by decide) (by decide)).2.2.1⟩

end DnsSvcs
